import Mathlib

/-!
Shallow embedding of the template-registry subsystem of the generator
repository (main file: src/template_registry.rs, error type: src/error.rs).

The adapter bodies (`load_template_from_registry` and the four
`load_*_templates` functions) are unimplemented stubs (`todo!`) in the
source, and the filesystem / JSON layers (`tokio::fs::read_to_string`,
`serde_json::from_str`) are external crates.  Following the spec, which
places the adapters behind a minimal capability interface so that they
can be replaced by deterministic fakes, these effects are gathered in an
environment record `Env` of oracle functions, and the orchestration code
of the Template Manager is translated literally against that environment.
Time is observed through `Env.now`, modelling the value of
`std::time::SystemTime::now()` during a single call.
-/

namespace Generator

/-- Nanoseconds in one second; `Duration::as_secs` truncates by this. -/
def NANOS_PER_SEC : Nat := 1000000000

/-- `std::time::SystemTime`, as nanoseconds since the epoch. -/
structure SystemTime where
  nanos : Nat
  deriving DecidableEq

/-- `SystemTime::elapsed` at observation instant `now`: the elapsed
`Duration` in nanoseconds, or an error when the clock has regressed past
the stored instant (Rust's `SystemTimeError`). -/
def SystemTime.elapsed (t : SystemTime) (now : SystemTime) : Except Unit Nat :=
  if t.nanos ≤ now.nanos then Except.ok (now.nanos - t.nanos) else Except.error ()

/-- `Duration::as_secs` on a duration given in nanoseconds. -/
def durationAsSecs (d : Nat) : Nat := d / NANOS_PER_SEC

/-- `std::path::PathBuf`, as its list of components. -/
structure PathBuf where
  components : List String
  deriving DecidableEq

/-- `PathBuf::join` with a single extra component. -/
def PathBuf.join (p : PathBuf) (s : String) : PathBuf :=
  ⟨p.components ++ [s]⟩

/-- Git 认证信息 (src/template_registry.rs `GitAuth`). -/
structure GitAuth where
  username : Option String
  token : Option String
  deriving DecidableEq

/-- HTTP 认证信息 (src/template_registry.rs `HttpAuth`). -/
structure HttpAuth where
  bearer_token : Option String
  basic_auth : Option (String × String)
  deriving DecidableEq

/-- 模板源类型 (src/template_registry.rs `TemplateSource`). -/
inductive TemplateSource where
  | Local (path : PathBuf)
  | Git (url : String) (branch : Option String) (subfolder : Option String)
      (auth : Option GitAuth)
  | Http (url : String) (checksum : Option String) (auth : Option HttpAuth)
  | Npm (package : String) (version : String) (registry : Option String)
  deriving DecidableEq

/-- 模板注册表 (src/template_registry.rs `TemplateRegistry`); `priority`:
数字越小优先级越高 (lower number = higher priority). -/
structure TemplateRegistry where
  name : String
  source : TemplateSource
  enabled : Bool
  priority : Nat
  deriving DecidableEq

/-- 模板注册表配置 (src/template_registry.rs `TemplateRegistryConfig`);
`cache_ttl` is in seconds. -/
structure TemplateRegistryConfig where
  registries : List TemplateRegistry
  cache_dir : PathBuf
  cache_ttl : Nat
  deriving DecidableEq

/-- 模板变量类型 (src/template_registry.rs `VariableType`). -/
inductive VariableType where
  | String
  | Boolean
  | Number
  | Choice (options : List String)
  deriving DecidableEq

/-- 模板变量定义 (src/template_registry.rs `TemplateVariable`). -/
structure TemplateVariable where
  name : String
  description : String
  default : Option String
  required : Bool
  var_type : VariableType
  deriving DecidableEq

/-- 模板元数据 (src/template_registry.rs `TemplateMetadata`). -/
structure TemplateMetadata where
  name : String
  version : String
  description : String
  author : String
  project_type : String
  «variables» : List TemplateVariable
  dependencies : List String
  tags : List String
  deriving DecidableEq

/-- 项目生成器错误类型 (src/error.rs `GeneratorError`).  Payloads of the
foreign wrapped errors (`std::io::Error`, `serde_json::Error`,
`handlebars::RenderError`) are kept as strings. -/
inductive GeneratorError where
  | Io (e : String)
  | TemplateNotFound (s : String)
  | InvalidProjectName (s : String)
  | JavaEnvironment (s : String)
  | TemplateProcessing (s : String)
  | FileOperation (s : String)
  | Configuration (s : String)
  | ExternalCommand (s : String)
  | Serialization (e : String)
  | TemplateEngine (e : String)
  | Unknown (s : String)
  deriving DecidableEq

/-- 缓存的模板 (src/template_registry.rs `CachedTemplate`). -/
structure CachedTemplate where
  metadata : TemplateMetadata
  path : PathBuf
  cached_at : SystemTime
  deriving DecidableEq

/-- The manager's `cache: HashMap<String, CachedTemplate>`, modelled as an
association list with first-match lookup and shadowing insert. -/
abbrev Cache := List (String × CachedTemplate)

/-- `HashMap::get` on the association-list model. -/
def Cache.find? : Cache → String → Option CachedTemplate
  | [], _ => none
  | (k, v) :: rest, key => if k = key then some v else Cache.find? rest key

/-- `HashMap::insert` on the association-list model (the new binding
shadows any previous binding of the same key). -/
def Cache.insert (c : Cache) (key : String) (v : CachedTemplate) : Cache :=
  (key, v) :: c

/-- 模板管理器 (src/template_registry.rs `TemplateManager`). -/
structure TemplateManager where
  config : TemplateRegistryConfig
  cache : Cache
  deriving DecidableEq

/-- `TemplateManager::new`. -/
def TemplateManager.new (config : TemplateRegistryConfig) : TemplateManager :=
  ⟨config, []⟩

/-- Payload of a `std::io::Error` (its display string). -/
abbrev IoError := String

/-- Payload of a `serde_json::Error` (its display string). -/
abbrev SerdeError := String

/-- Oracle environment for the effects the orchestration code calls into.
`fetchOne` stands for `TemplateManager::load_template_from_registry` and
`fetchList` for `TemplateManager::load_templates_from_registry`, whose
bodies are `todo!` stubs in the source (the spec's adapter contract
`fetch_one` / `fetch_list`); `readToString` stands for
`tokio::fs::read_to_string` and `parseMetadata` for
`serde_json::from_str::<TemplateMetadata>`; `now` is the instant observed
by `SystemTime::now` during the call. -/
structure Env where
  fetchOne : TemplateRegistry → String → String → Except GeneratorError PathBuf
  fetchList : TemplateRegistry → Except GeneratorError (List TemplateMetadata)
  readToString : PathBuf → Except IoError String
  parseMetadata : String → Except SerdeError TemplateMetadata
  now : SystemTime

/-- `TemplateManager::load_template_metadata` (src/template_registry.rs
lines 265-270): read `template.json` under the template path and
deserialize it.  The `?` operator converts the I/O error through
`GeneratorError::Io` (`#[from] std::io::Error`) and the JSON error
through `GeneratorError::Serialization` (`#[from] serde_json::Error`),
per src/error.rs. -/
def load_template_metadata (env : Env) (template_path : PathBuf) :
    Except GeneratorError TemplateMetadata :=
  let metadata_path := template_path.join "template.json"
  match env.readToString metadata_path with
  | Except.error e => Except.error (GeneratorError.Io e)
  | Except.ok content =>
    match env.parseMetadata content with
    | Except.error e => Except.error (GeneratorError.Serialization e)
    | Except.ok metadata => Except.ok metadata

/-- `TemplateManager::is_cache_expired` (src/template_registry.rs lines
273-279): expired when the whole-second count of the elapsed time exceeds
`cache_ttl`; a clock-read failure counts as expired. -/
def TemplateManager.is_cache_expired (m : TemplateManager) (now : SystemTime)
    (cached : CachedTemplate) : Bool :=
  match cached.cached_at.elapsed now with
  | Except.ok elapsed => decide (durationAsSecs elapsed > m.config.cache_ttl)
  | Except.error _ => true

/-- The cache key `format!("\x7b\x7d:\x7b\x7d", project_type, template_name)`
used at lines 161 and 192 of src/template_registry.rs. -/
def cacheKeyOf (project_type template_name : String) : String :=
  project_type ++ ":" ++ template_name

/-- The registry loop of `TemplateManager::get_template`
(src/template_registry.rs lines 171-192): iterate `config.registries` in
list order; skip disabled entries; on the first successful fetch, insert
a cache entry when the metadata descriptor loads (and only then) and
return the path; any fetch error falls through to the next entry
(`if let Ok(..)`); when the list is exhausted fail with
`TemplateNotFound` of the composite key. -/
def get_template_loop (env : Env) (m : TemplateManager) (cache_key : String)
    (project_type template_name : String) :
    List TemplateRegistry → Except GeneratorError PathBuf × TemplateManager
  | [] =>
    (Except.error (GeneratorError.TemplateNotFound
      (cacheKeyOf project_type template_name)), m)
  | registry :: rest =>
    if !registry.enabled then
      get_template_loop env m cache_key project_type template_name rest
    else
      match env.fetchOne registry project_type template_name with
      | Except.ok template_path =>
        match load_template_metadata env template_path with
        | Except.ok metadata =>
          (Except.ok template_path,
            { m with cache := Cache.insert m.cache cache_key (CachedTemplate.mk
                metadata template_path env.now) })
        | Except.error _ => (Except.ok template_path, m)
      | Except.error _ =>
        get_template_loop env m cache_key project_type template_name rest

/-- `TemplateManager::get_template` (src/template_registry.rs lines
160-193): check the cache first and return a non-expired hit
immediately; otherwise run the registry loop.  Returns the result
together with the updated manager (the `&mut self` state). -/
def TemplateManager.get_template (env : Env) (m : TemplateManager)
    (project_type template_name : String) :
    Except GeneratorError PathBuf × TemplateManager :=
  let cache_key := cacheKeyOf project_type template_name
  match Cache.find? m.cache cache_key with
  | some cached =>
    if !(m.is_cache_expired env.now cached) then
      (Except.ok cached.path, m)
    else
      get_template_loop env m cache_key project_type template_name
        m.config.registries
  | none =>
    get_template_loop env m cache_key project_type template_name
      m.config.registries

/-- The comparison key of `registries.sort_by_key(|r| r.priority)`. -/
def regLE (a b : TemplateRegistry) : Prop := a.priority ≤ b.priority

instance : DecidableRel regLE := fun a b => Nat.decLe a.priority b.priority

instance : IsTotal TemplateRegistry regLE :=
  ⟨fun a b => Nat.le_total a.priority b.priority⟩

instance : IsTrans TemplateRegistry regLE :=
  ⟨fun _ _ _ h h' => Nat.le_trans h h'⟩

/-- `registries.sort_by_key(|r| r.priority)`: a stable sort by ascending
priority, modelled by stable insertion sort. -/
def sortByPriority (l : List TemplateRegistry) : List TemplateRegistry :=
  List.insertionSort regLE l

/-- The `retain` filter of `list_templates`: keep records whose
`project_type` equals the requested one, when one is requested. -/
def filterByType (project_type : Option String)
    (ts : List TemplateMetadata) : List TemplateMetadata :=
  match project_type with
  | some pt => ts.filter (fun t => t.project_type == pt)
  | none => ts

/-- The registry loop of `TemplateManager::list_templates`
(src/template_registry.rs lines 136-154): skip disabled entries; extend
the accumulator with the (type-filtered) records of each entry whose
listing succeeds; an entry whose listing fails is only warned about and
skipped. -/
def list_templates_loop (env : Env) (project_type : Option String) :
    List TemplateRegistry → List TemplateMetadata
  | [] => []
  | registry :: rest =>
    if !registry.enabled then
      list_templates_loop env project_type rest
    else
      match env.fetchList registry with
      | Except.ok registry_templates =>
        filterByType project_type registry_templates ++
          list_templates_loop env project_type rest
      | Except.error _ => list_templates_loop env project_type rest

/-- `TemplateManager::list_templates` (src/template_registry.rs lines
129-157): sort a copy of the registries by priority, run the loop, and
return `Ok` of the accumulated records.  The cache is not touched, so
only the result is returned. -/
def TemplateManager.list_templates (env : Env) (m : TemplateManager)
    (project_type : Option String) :
    Except GeneratorError (List TemplateMetadata) :=
  Except.ok (list_templates_loop env project_type
    (sortByPriority m.config.registries))

/-- True when the cache holds no usable (present and non-expired) entry
for `key`, i.e. when `get_template` falls through to the registry loop. -/
def noFreshEntry (m : TemplateManager) (now : SystemTime) (key : String) : Bool :=
  match Cache.find? m.cache key with
  | some cached => m.is_cache_expired now cached
  | none => true

/-- True when the registry loop of `get_template` passes over `r`:
either `r` is disabled, or its fetch fails. -/
def skippedEntry (env : Env) (project_type template_name : String)
    (r : TemplateRegistry) : Bool :=
  !r.enabled ||
    (match env.fetchOne r project_type template_name with
     | Except.ok _ => false
     | Except.error _ => true)

/-- True exactly on the `error` side of a fetch result. -/
def fetchIsErr : Except GeneratorError PathBuf → Bool
  | Except.ok _ => false
  | Except.error _ => true

/-- True exactly on the error kinds the spec groups as
`TemplateProcessing`/deserialization. -/
def isProcessingOrDeserialization : GeneratorError → Bool
  | GeneratorError.TemplateProcessing _ => true
  | GeneratorError.Serialization _ => true
  | _ => false

/-- True exactly on `TemplateNotFound`. -/
def isTemplateNotFound : GeneratorError → Bool
  | GeneratorError.TemplateNotFound _ => true
  | _ => false

/-- True exactly on the wrapped foreign error kinds `Io` and
`Serialization` (the two kinds `load_template_metadata` can produce). -/
def isIoOrDeserialization : GeneratorError → Bool
  | GeneratorError.Io _ => true
  | GeneratorError.Serialization _ => true
  | _ => false

/-- Concrete fixture: resolved path of registry entry "a". -/
def samplePathA : PathBuf := ⟨["srv", "ta"]⟩

/-- Concrete fixture: resolved path of the other registry entries. -/
def samplePathB : PathBuf := ⟨["srv", "tb"]⟩

/-- Concrete fixture: a vue template metadata record. -/
def sampleMeta : TemplateMetadata :=
  ⟨"app", "1.0.0", "demo template", "dev", "vue", [], [], []⟩

/-- Concrete fixture: enabled local entry "a" with priority 5. -/
def regA : TemplateRegistry := ⟨"a", TemplateSource.Local ⟨["tpl", "a"]⟩, true, 5⟩

/-- Concrete fixture: enabled local entry "b" with priority 0. -/
def regB : TemplateRegistry := ⟨"b", TemplateSource.Local ⟨["tpl", "b"]⟩, true, 0⟩

/-- Concrete fixture: a disabled entry with the best priority. -/
def regOff : TemplateRegistry :=
  ⟨"off", TemplateSource.Local ⟨["tpl", "off"]⟩, false, 0⟩

/-- Concrete fixture: configuration listing entry "a" (priority 5) before
entry "b" (priority 0), TTL 3600 seconds. -/
def cfgAB : TemplateRegistryConfig := ⟨[regA, regB], ⟨[".template_cache"]⟩, 3600⟩

/-- Concrete fixture: manager over `cfgAB` with an empty cache. -/
def mgrAB : TemplateManager := TemplateManager.new cfgAB

/-- Concrete fixture: configuration with a disabled entry listed first. -/
def cfgDAB : TemplateRegistryConfig :=
  ⟨[regOff, regA, regB], ⟨[".template_cache"]⟩, 3600⟩

/-- Concrete fixture: manager over `cfgDAB` with an empty cache. -/
def mgrDAB : TemplateManager := TemplateManager.new cfgDAB

/-- Concrete fixture environment: every entry fetches successfully
(entry "a" to `samplePathA`, any other to `samplePathB`) and the metadata
descriptor reads and parses to `sampleMeta`. -/
def envAB : Env where
  fetchOne := fun r _ _ =>
    if r.name = "a" then Except.ok samplePathA else Except.ok samplePathB
  fetchList := fun _ => Except.error (GeneratorError.Io "unavailable")
  readToString := fun _ => Except.ok "sample descriptor"
  parseMetadata := fun _ => Except.ok sampleMeta
  now := ⟨1000⟩

/-- Concrete fixture environment: every fetch fails with an I/O error. -/
def envFail : Env where
  fetchOne := fun _ _ _ => Except.error (GeneratorError.Io "down")
  fetchList := fun _ => Except.error (GeneratorError.Io "down")
  readToString := fun _ => Except.error "down"
  parseMetadata := fun _ => Except.error "down"
  now := ⟨1000⟩

/-- Concrete fixture environment: fetches succeed (as in `envAB`) but
reading the metadata descriptor fails at the filesystem level. -/
def envReadFail : Env where
  fetchOne := fun r _ _ =>
    if r.name = "a" then Except.ok samplePathA else Except.ok samplePathB
  fetchList := fun _ => Except.error (GeneratorError.Io "unavailable")
  readToString := fun _ => Except.error "no such file"
  parseMetadata := fun _ => Except.ok sampleMeta
  now := ⟨1000⟩

/-- Concrete fixture environment: the descriptor reads but is malformed,
so parsing fails. -/
def envParseFail : Env where
  fetchOne := fun r _ _ =>
    if r.name = "a" then Except.ok samplePathA else Except.ok samplePathB
  fetchList := fun _ => Except.error (GeneratorError.Io "unavailable")
  readToString := fun _ => Except.ok "not json"
  parseMetadata := fun _ => Except.error "expected value"
  now := ⟨1000⟩

/-- Concrete fixture environment: entry "a" fails with a
`TemplateProcessing` error while the other entries fetch successfully. -/
def envProcErr : Env where
  fetchOne := fun r _ _ =>
    if r.name = "a" then Except.error (GeneratorError.TemplateProcessing "bad")
    else Except.ok samplePathB
  fetchList := fun _ => Except.error (GeneratorError.Io "unavailable")
  readToString := fun _ => Except.ok "sample descriptor"
  parseMetadata := fun _ => Except.ok sampleMeta
  now := ⟨1000⟩

/-- Concrete fixture: a cached template entry cached at instant 0. -/
def cachedW : CachedTemplate := ⟨sampleMeta, samplePathB, ⟨0⟩⟩

/-- Concrete fixture: manager over `cfgAB` whose cache already holds
`cachedW` under the key "vue:app". -/
def mgrCached : TemplateManager := ⟨cfgAB, [("vue:app", cachedW)]⟩

/-- Concrete fixture: manager with no registries and a 2-second TTL. -/
def mgrTtl : TemplateManager := ⟨⟨[], ⟨[]⟩, 2⟩, []⟩

/-- Concrete fixture: entry cached at instant 5 (later than a regressed
clock reading 0). -/
def cachedAt5 : CachedTemplate := ⟨sampleMeta, samplePathA, ⟨5⟩⟩

/-- When no usable cache entry exists, `get_template` is the registry
loop over the configured registry list. -/
theorem get_template_eq_loop (env : Env) (m : TemplateManager)
    (pt tn : String)
    (h : noFreshEntry m env.now (cacheKeyOf pt tn) = true) :
    TemplateManager.get_template env m pt tn =
      get_template_loop env m (cacheKeyOf pt tn) pt tn m.config.registries := by
  unfold TemplateManager.get_template
  unfold noFreshEntry at h
  cases hf : Cache.find? m.cache (cacheKeyOf pt tn) with
  | none => simp [hf]
  | some cached =>
    rw [hf] at h
    simp only [] at h
    simp [hf, h]

/-- A non-expired cache hit returns the cached path and leaves the
manager untouched. -/
theorem get_template_cache_hit (env : Env) (m : TemplateManager)
    (pt tn : String) (cached : CachedTemplate)
    (hf : Cache.find? m.cache (cacheKeyOf pt tn) = some cached)
    (hx : m.is_cache_expired env.now cached = false) :
    TemplateManager.get_template env m pt tn = (Except.ok cached.path, m) := by
  unfold TemplateManager.get_template
  simp [hf, hx]

/-- The registry loop passes over a disabled or fetch-failing entry. -/
theorem get_template_loop_skip (env : Env) (m : TemplateManager)
    (cache_key pt tn : String) (r : TemplateRegistry)
    (rest : List TemplateRegistry)
    (h : skippedEntry env pt tn r = true) :
    get_template_loop env m cache_key pt tn (r :: rest) =
      get_template_loop env m cache_key pt tn rest := by
  unfold skippedEntry at h
  cases he : r.enabled with
  | false =>
    rw [get_template_loop.eq_def]
    simp [he]
  | true =>
    rw [he] at h
    simp only [Bool.not_true, Bool.false_or] at h
    cases hf : env.fetchOne r pt tn with
    | ok p => rw [hf] at h; simp at h
    | error e =>
      rw [get_template_loop.eq_def]
      simp [he, hf]

/-- The registry loop passes over any prefix of skipped entries. -/
theorem get_template_loop_skip_all (env : Env) (m : TemplateManager)
    (cache_key pt tn : String) :
    ∀ pre l, pre.all (skippedEntry env pt tn) = true →
      get_template_loop env m cache_key pt tn (pre ++ l) =
        get_template_loop env m cache_key pt tn l := by
  intro pre
  induction pre with
  | nil => intro l _; rfl
  | cons r rest ih =>
    intro l h
    rw [List.all_cons, Bool.and_eq_true] at h
    rw [List.cons_append, get_template_loop_skip env m cache_key pt tn r _ h.1,
        ih l h.2]

/-- An enabled entry whose fetch and metadata load both succeed ends the
loop with the fetched path and a freshly inserted cache entry. -/
theorem get_template_loop_hit_ok (env : Env) (m : TemplateManager)
    (cache_key pt tn : String) (r : TemplateRegistry)
    (rest : List TemplateRegistry) (p : PathBuf) (md : TemplateMetadata)
    (hen : r.enabled = true)
    (hf : env.fetchOne r pt tn = Except.ok p)
    (hmd : load_template_metadata env p = Except.ok md) :
    get_template_loop env m cache_key pt tn (r :: rest) =
      (Except.ok p,
        { m with cache := Cache.insert m.cache cache_key ⟨md, p, env.now⟩ }) := by
  unfold get_template_loop
  simp [hen, hf, hmd]

/-- An enabled entry whose fetch succeeds but whose metadata load fails
ends the loop with the fetched path and an unchanged manager. -/
theorem get_template_loop_hit_err (env : Env) (m : TemplateManager)
    (cache_key pt tn : String) (r : TemplateRegistry)
    (rest : List TemplateRegistry) (p : PathBuf) (e : GeneratorError)
    (hen : r.enabled = true)
    (hf : env.fetchOne r pt tn = Except.ok p)
    (hmd : load_template_metadata env p = Except.error e) :
    get_template_loop env m cache_key pt tn (r :: rest) = (Except.ok p, m) := by
  unfold get_template_loop
  simp [hen, hf, hmd]

/-- The registry loop either succeeds with some path or fails with
`TemplateNotFound` of the composite key, leaving the manager unchanged in
the failure case. -/
theorem get_template_loop_shape (env : Env) (m : TemplateManager)
    (cache_key pt tn : String) :
    ∀ l, (∃ p m', get_template_loop env m cache_key pt tn l =
            (Except.ok p, m')) ∨
      get_template_loop env m cache_key pt tn l =
        (Except.error (GeneratorError.TemplateNotFound (cacheKeyOf pt tn)), m) := by
  intro l
  induction l with
  | nil => exact Or.inr rfl
  | cons r rest ih =>
    cases he : r.enabled with
    | false =>
      have hs : skippedEntry env pt tn r = true := by simp [skippedEntry, he]
      rw [get_template_loop_skip env m cache_key pt tn r rest hs]
      exact ih
    | true =>
      cases hf : env.fetchOne r pt tn with
      | error e =>
        have hs : skippedEntry env pt tn r = true := by
          simp [skippedEntry, he, hf]
        rw [get_template_loop_skip env m cache_key pt tn r rest hs]
        exact ih
      | ok p =>
        cases hmd : load_template_metadata env p with
        | ok md =>
          exact Or.inl ⟨p, _,
            get_template_loop_hit_ok env m cache_key pt tn r rest p md he hf hmd⟩
        | error e =>
          exact Or.inl ⟨p, m,
            get_template_loop_hit_err env m cache_key pt tn r rest p e he hf hmd⟩

/-- When every entry in the list is skipped, the loop exhausts the list
and fails with `TemplateNotFound`. -/
theorem get_template_loop_all_skipped (env : Env) (m : TemplateManager)
    (cache_key pt tn : String) (l : List TemplateRegistry)
    (h : l.all (skippedEntry env pt tn) = true) :
    get_template_loop env m cache_key pt tn l =
      (Except.error (GeneratorError.TemplateNotFound (cacheKeyOf pt tn)), m) := by
  have := get_template_loop_skip_all env m cache_key pt tn l [] h
  rw [List.append_nil] at this
  rw [this]
  rfl

/-- A failing descriptor read surfaces as a `GeneratorError.Io` error. -/
theorem load_template_metadata_read_err (env : Env) (p : PathBuf)
    (e : IoError)
    (h : env.readToString (p.join "template.json") = Except.error e) :
    load_template_metadata env p = Except.error (GeneratorError.Io e) := by
  unfold load_template_metadata
  simp [h]

/-- A failing descriptor parse surfaces as a
`GeneratorError.Serialization` error. -/
theorem load_template_metadata_parse_err (env : Env) (p : PathBuf)
    (c : String) (e : SerdeError)
    (h1 : env.readToString (p.join "template.json") = Except.ok c)
    (h2 : env.parseMetadata c = Except.error e) :
    load_template_metadata env p =
      Except.error (GeneratorError.Serialization e) := by
  unfold load_template_metadata
  simp [h1, h2]

/-- A readable, well-formed descriptor loads successfully. -/
theorem load_template_metadata_ok (env : Env) (p : PathBuf)
    (c : String) (md : TemplateMetadata)
    (h1 : env.readToString (p.join "template.json") = Except.ok c)
    (h2 : env.parseMetadata c = Except.ok md) :
    load_template_metadata env p = Except.ok md := by
  unfold load_template_metadata
  simp [h1, h2]

/-- The listing loop, declaratively: concatenate, over the enabled
entries in list order, the type-filtered records of the entries whose
listing succeeds; failing entries contribute nothing. -/
theorem list_templates_loop_eq_flatMap (env : Env)
    (project_type : Option String) :
    ∀ l, list_templates_loop env project_type l =
      (l.filter (fun r => r.enabled)).flatMap
        (fun r => match env.fetchList r with
          | Except.ok ts => filterByType project_type ts
          | Except.error _ => []) := by
  intro l
  induction l with
  | nil => rfl
  | cons r rest ih =>
    unfold list_templates_loop
    cases he : r.enabled with
    | false => simp [he, List.filter_cons, ih]
    | true =>
      cases hf : env.fetchList r with
      | ok ts => simp [he, hf, List.filter_cons, ih]
      | error e => simp [he, hf, List.filter_cons, ih]

/-- Claim C1, evidence of the code bug: the claim (and the spec) require
`get_template` to try registry entries in ascending priority order, but
the code iterates `config.registries` in configuration order without
sorting (unlike `list_templates`, which sorts first).  With an empty
cache and both entries enabled and fetchable, the entry listed first —
priority 5 — determines the result, not the entry with the better
priority 0: the call returns `samplePathA` although priority order would
return `samplePathB`. -/
theorem C1_get_template_not_priority_ordered :
    (TemplateManager.get_template envAB mgrAB "vue" "app").1 =
      Except.ok samplePathA ∧
    envAB.fetchOne regB "vue" "app" = Except.ok samplePathB ∧
    decide (samplePathA = samplePathB) = false ∧
    regA.priority = 5 ∧ regB.priority = 0 ∧ regB.enabled = true ∧
    mgrAB.config.registries = [regA, regB] :=
  ⟨rfl, rfl, rfl, rfl, rfl, rfl, rfl⟩

/-- Claim C2, counterexample to the claim as stated: on a cache miss the
first enabled entry's fetch succeeds (returning `samplePathA`), yet no
cache entry is inserted for the key, because reading the metadata
descriptor at the resolved path fails — the claim asserts the cache
entry is inserted before returning whenever the fetch succeeds. -/
theorem C2_counterexample :
    (TemplateManager.get_template envReadFail mgrAB "vue" "app").1 =
      Except.ok samplePathA ∧
    Cache.find?
      (TemplateManager.get_template envReadFail mgrAB "vue" "app").2.cache
      (cacheKeyOf "vue" "app") = none :=
  ⟨rfl, rfl⟩

/-- Claim C2 (amended): when the cache holds no usable entry, the first
registry entry in configuration order that is enabled and whose fetch
succeeds determines the result: its path is returned and — provided the
metadata descriptor at that path also loads successfully — a cache entry
for the composite key holding that path, the metadata and the current
instant is inserted before returning; entries after the first success
are never consulted (the conclusion does not depend on `post`). -/
theorem C2_first_success_cached_and_returned (env : Env)
    (m : TemplateManager) (pt tn : String)
    (pre post : List TemplateRegistry) (r : TemplateRegistry)
    (p : PathBuf) (md : TemplateMetadata)
    (hck : noFreshEntry m env.now (cacheKeyOf pt tn) = true)
    (hreg : m.config.registries = pre ++ r :: post)
    (hpre : pre.all (skippedEntry env pt tn) = true)
    (hen : r.enabled = true)
    (hf : env.fetchOne r pt tn = Except.ok p)
    (hmd : load_template_metadata env p = Except.ok md) :
    TemplateManager.get_template env m pt tn =
      (Except.ok p, TemplateManager.mk m.config
        (Cache.insert m.cache (cacheKeyOf pt tn)
          (CachedTemplate.mk md p env.now))) := by
  rw [get_template_eq_loop env m pt tn hck, hreg,
      get_template_loop_skip_all env m (cacheKeyOf pt tn) pt tn pre
        (r :: post) hpre]
  exact get_template_loop_hit_ok env m (cacheKeyOf pt tn) pt tn r post p md
    hen hf hmd

/-- Claim C2, witness: a disabled entry is passed over, entry "a"
succeeds, its metadata loads, and the call returns its path having
inserted the cache entry, with entry "b" never consulted. -/
theorem C2_witness :
    noFreshEntry mgrDAB envAB.now (cacheKeyOf "vue" "app") = true ∧
    mgrDAB.config.registries = [regOff] ++ regA :: [regB] ∧
    [regOff].all (skippedEntry envAB "vue" "app") = true ∧
    regA.enabled = true ∧
    envAB.fetchOne regA "vue" "app" = Except.ok samplePathA ∧
    load_template_metadata envAB samplePathA = Except.ok sampleMeta ∧
    TemplateManager.get_template envAB mgrDAB "vue" "app" =
      (Except.ok samplePathA, TemplateManager.mk mgrDAB.config
        (Cache.insert mgrDAB.cache (cacheKeyOf "vue" "app")
          (CachedTemplate.mk sampleMeta samplePathA envAB.now))) := by
  refine ⟨rfl, rfl, rfl, rfl, rfl, rfl, ?_⟩
  exact C2_first_success_cached_and_returned envAB mgrDAB "vue" "app"
    [regOff] [regB] regA samplePathA sampleMeta rfl rfl rfl rfl rfl rfl

/-- Claim C3, counterexample to the claim as stated: entry "a" (enabled,
first) fails with a `TemplateProcessing` error — which the claim says
propagates unchanged to the caller — yet the call succeeds with the next
entry's path: the code catches every error kind and tries the next
entry. -/
theorem C3_counterexample :
    envProcErr.fetchOne regA "vue" "app" =
      Except.error (GeneratorError.TemplateProcessing "bad") ∧
    regA.enabled = true ∧
    (TemplateManager.get_template envProcErr mgrAB "vue" "app").1 =
      Except.ok samplePathB ∧
    fetchIsErr (TemplateManager.get_template envProcErr mgrAB "vue" "app").1 =
      false :=
  ⟨rfl, rfl, rfl, rfl⟩

/-- Claim C3 (amended): during `get_template`, EVERY error raised by an
entry's fetch — of any kind — is caught and converted into trying the
next registry entry, and no fetch error ever propagates: an error result
of the whole call can only be `TemplateNotFound` of the composite key. -/
theorem C3_any_fetch_error_tries_next (env : Env) (m : TemplateManager)
    (pt tn : String) (r : TemplateRegistry) (rest : List TemplateRegistry)
    (e : GeneratorError)
    (hck : noFreshEntry m env.now (cacheKeyOf pt tn) = true)
    (hreg : m.config.registries = r :: rest)
    (_hen : r.enabled = true)
    (hf : env.fetchOne r pt tn = Except.error e) :
    (TemplateManager.get_template env m pt tn =
      get_template_loop env m (cacheKeyOf pt tn) pt tn rest) ∧
    (∀ e', (TemplateManager.get_template env m pt tn).1 = Except.error e' →
      e' = GeneratorError.TemplateNotFound (cacheKeyOf pt tn)) := by
  have hskip : skippedEntry env pt tn r = true := by simp [skippedEntry, hf]
  have h1 : TemplateManager.get_template env m pt tn =
      get_template_loop env m (cacheKeyOf pt tn) pt tn rest := by
    rw [get_template_eq_loop env m pt tn hck, hreg,
        get_template_loop_skip env m (cacheKeyOf pt tn) pt tn r rest hskip]
  refine ⟨h1, ?_⟩
  intro e' he'
  rw [h1] at he'
  rcases get_template_loop_shape env m (cacheKeyOf pt tn) pt tn rest with
    ⟨p, m', hsh⟩ | hsh
  · rw [hsh] at he'
    simp at he'
  · rw [hsh] at he'
    simp only [] at he'
    exact (Except.error.inj he').symm

/-- Claim C3, witness: entry "a" fails with an I/O error, the loop moves
on to entry "b", and the only error the whole call can produce is
`TemplateNotFound` of the composite key. -/
theorem C3_witness :
    noFreshEntry mgrAB envFail.now (cacheKeyOf "vue" "app") = true ∧
    mgrAB.config.registries = regA :: [regB] ∧
    regA.enabled = true ∧
    envFail.fetchOne regA "vue" "app" =
      Except.error (GeneratorError.Io "down") ∧
    TemplateManager.get_template envFail mgrAB "vue" "app" =
      get_template_loop envFail mgrAB (cacheKeyOf "vue" "app") "vue" "app"
        [regB] ∧
    GeneratorError.TemplateNotFound "vue:app" =
      GeneratorError.TemplateNotFound (cacheKeyOf "vue" "app") := by
  have h := C3_any_fetch_error_tries_next envFail mgrAB "vue" "app" regA
    [regB] (GeneratorError.Io "down") rfl rfl rfl rfl
  exact ⟨rfl, rfl, rfl, rfl, h.1,
    h.2 (GeneratorError.TemplateNotFound "vue:app") rfl⟩

/-- Claim C4: when a non-expired cache entry exists for the composite
key, `get_template` returns the cached path with the manager unchanged,
for EVERY environment — in particular the result does not depend on the
adapter oracles, i.e. no adapter is invoked — and hence a second call
within the TTL window (arbitrary environment again) returns the
identical path, likewise without consulting any adapter. -/
theorem C4_cache_hit_idempotent (env1 env2 : Env) (m : TemplateManager)
    (pt tn : String) (cached : CachedTemplate)
    (hf : Cache.find? m.cache (cacheKeyOf pt tn) = some cached)
    (h1 : m.is_cache_expired env1.now cached = false)
    (h2 : m.is_cache_expired env2.now cached = false) :
    TemplateManager.get_template env1 m pt tn = (Except.ok cached.path, m) ∧
    TemplateManager.get_template env2
        (TemplateManager.get_template env1 m pt tn).2 pt tn =
      (Except.ok cached.path, m) := by
  have e1 := get_template_cache_hit env1 m pt tn cached hf h1
  refine ⟨e1, ?_⟩
  rw [e1]
  exact get_template_cache_hit env2 m pt tn cached hf h2

/-- Claim C4, witness: with "vue:app" cached and fresh, two consecutive
calls both return the cached path and leave the manager unchanged. -/
theorem C4_witness :
    Cache.find? mgrCached.cache (cacheKeyOf "vue" "app") = some cachedW ∧
    mgrCached.is_cache_expired envAB.now cachedW = false ∧
    TemplateManager.get_template envAB mgrCached "vue" "app" =
      (Except.ok cachedW.path, mgrCached) ∧
    TemplateManager.get_template envAB
        (TemplateManager.get_template envAB mgrCached "vue" "app").2
        "vue" "app" =
      (Except.ok cachedW.path, mgrCached) := by
  have h := C4_cache_hit_idempotent envAB envAB mgrCached "vue" "app"
    cachedW rfl rfl rfl
  exact ⟨rfl, rfl, h.1, h.2⟩

/-- Claim C5: `is_cache_expired` returns true exactly when the elapsed
time since `cached_at`, counted in whole seconds (`Duration::as_secs`),
strictly exceeds the configured TTL; an entry aged exactly `ttl` seconds
is still fresh; and when reading the elapsed time fails (the clock has
regressed past `cached_at`) the entry is treated as expired. -/
theorem C5_is_cache_expired_spec (m : TemplateManager) (c : CachedTemplate)
    (now : SystemTime) :
    (c.cached_at.nanos ≤ now.nanos →
      (m.is_cache_expired now c = true ↔
        durationAsSecs (now.nanos - c.cached_at.nanos) > m.config.cache_ttl)) ∧
    (now.nanos < c.cached_at.nanos → m.is_cache_expired now c = true) ∧
    (c.cached_at.nanos ≤ now.nanos →
      now.nanos - c.cached_at.nanos = m.config.cache_ttl * NANOS_PER_SEC →
      m.is_cache_expired now c = false) := by
  unfold TemplateManager.is_cache_expired SystemTime.elapsed
  refine ⟨?_, ?_, ?_⟩
  · intro h
    simp [h]
  · intro h
    have hn : ¬ c.cached_at.nanos ≤ now.nanos := Nat.not_le.mpr h
    simp [hn]
  · intro h he
    have hp : 0 < NANOS_PER_SEC := by decide
    simp [h, he, durationAsSecs, Nat.mul_div_cancel m.config.cache_ttl hp]

/-- Claim C5, witness: with a 2-second TTL, an entry aged exactly 2
seconds is fresh, an entry aged 3 seconds is expired, and a regressed
clock (now earlier than `cached_at`) makes the entry expired. -/
theorem C5_witness :
    mgrTtl.config.cache_ttl = 2 ∧
    mgrTtl.is_cache_expired ⟨2 * NANOS_PER_SEC⟩ cachedW = false ∧
    mgrTtl.is_cache_expired ⟨3 * NANOS_PER_SEC⟩ cachedW = true ∧
    mgrTtl.is_cache_expired ⟨0⟩ cachedAt5 = true := by
  refine ⟨rfl, ?_, ?_, ?_⟩
  · exact (C5_is_cache_expired_spec mgrTtl cachedW ⟨2 * NANOS_PER_SEC⟩).2.2
      (by decide) (by decide)
  · exact ((C5_is_cache_expired_spec mgrTtl cachedW ⟨3 * NANOS_PER_SEC⟩).1
      (by decide)).mpr (by decide)
  · exact (C5_is_cache_expired_spec mgrTtl cachedAt5 ⟨0⟩).2.1 (by decide)

/-- Claim C6: `list_templates` never fails because a registry entry
fails: for every configuration and every oracle behaviour it returns
`Ok` of the concatenation, over the enabled entries in sorted order, of
the type-filtered records of the entries whose listing succeeds — an
entry whose listing errors contributes nothing and aborts nothing. -/
theorem C6_list_templates_skips_failures (env : Env) (m : TemplateManager)
    (project_type : Option String) :
    TemplateManager.list_templates env m project_type =
      Except.ok (((sortByPriority m.config.registries).filter
          (fun r => r.enabled)).flatMap
        (fun r => match env.fetchList r with
          | Except.ok ts => filterByType project_type ts
          | Except.error _ => [])) := by
  unfold TemplateManager.list_templates
  rw [list_templates_loop_eq_flatMap]

/-- Claim C7: when the cache holds no usable entry and every registry
entry is passed over — each one disabled or failing its fetch, which in
particular covers "every enabled entry fails" and "no enabled entry
exists" — `get_template` fails with `TemplateNotFound` carrying exactly
the composite key string, and the manager is unchanged. -/
theorem C7_exhaustion_not_found (env : Env) (m : TemplateManager)
    (pt tn : String)
    (hck : noFreshEntry m env.now (cacheKeyOf pt tn) = true)
    (hall : m.config.registries.all (skippedEntry env pt tn) = true) :
    TemplateManager.get_template env m pt tn =
      (Except.error (GeneratorError.TemplateNotFound (pt ++ ":" ++ tn)), m) := by
  rw [get_template_eq_loop env m pt tn hck]
  exact get_template_loop_all_skipped env m (cacheKeyOf pt tn) pt tn
    m.config.registries hall

/-- Claim C7, witness: both enabled entries fail their fetch, and the
call fails with `TemplateNotFound "vue:app"`. -/
theorem C7_witness :
    noFreshEntry mgrAB envFail.now (cacheKeyOf "vue" "app") = true ∧
    mgrAB.config.registries.all (skippedEntry envFail "vue" "app") = true ∧
    TemplateManager.get_template envFail mgrAB "vue" "app" =
      (Except.error (GeneratorError.TemplateNotFound ("vue" ++ ":" ++ "app")),
        mgrAB) :=
  ⟨rfl, rfl, C7_exhaustion_not_found envFail mgrAB "vue" "app" rfl rfl⟩

/-- Claim C8: `list_templates` with a requested project type returns
exactly the records whose `project_type` equals the argument, drawn from
the enabled entries of the priority-sorted registry list (stable sort by
ascending priority), each successful source's records kept in source
order and concatenated without deduplication; the sorted list is indeed
sorted by ascending priority. -/
theorem C8_list_templates_by_type (env : Env) (m : TemplateManager)
    (s : String) :
    TemplateManager.list_templates env m (some s) =
      Except.ok (((sortByPriority m.config.registries).filter
          (fun r => r.enabled)).flatMap
        (fun r => match env.fetchList r with
          | Except.ok ts => ts.filter (fun t => t.project_type == s)
          | Except.error _ => [])) ∧
    (((sortByPriority m.config.registries).filter
          (fun r => r.enabled)).flatMap
        (fun r => match env.fetchList r with
          | Except.ok ts => ts.filter (fun t => t.project_type == s)
          | Except.error _ => [])).all
      (fun t => t.project_type == s) = true ∧
    List.Sorted regLE (sortByPriority m.config.registries) := by
  refine ⟨?_, ?_, List.sorted_insertionSort regLE m.config.registries⟩
  · unfold TemplateManager.list_templates
    rw [list_templates_loop_eq_flatMap]
    rfl
  · rw [List.all_eq_true]
    intro t ht
    rw [List.mem_flatMap] at ht
    obtain ⟨r, _, htf⟩ := ht
    cases hF : env.fetchList r with
    | ok ts =>
      rw [hF] at htf
      exact (List.mem_filter.mp htf).2
    | error e =>
      rw [hF] at htf
      simp at htf

/-- Claim C9, counterexample to the claim as stated: when the descriptor
file is absent (the filesystem read fails), `load_template_metadata`
fails with an `Io` error — which is neither a `TemplateProcessing` nor a
deserialization (`Serialization`) error, though indeed not
`TemplateNotFound` either. -/
theorem C9_counterexample :
    load_template_metadata envReadFail samplePathA =
      Except.error (GeneratorError.Io "no such file") ∧
    isProcessingOrDeserialization (GeneratorError.Io "no such file") = false ∧
    isTemplateNotFound (GeneratorError.Io "no such file") = false :=
  ⟨rfl, rfl, rfl⟩

/-- Claim C9 (amended): loading the metadata descriptor fails with an
`Io` error (wrapping the filesystem failure) when reading
`template.json` fails — e.g. the file is absent — and with a
`Serialization` (deserialization) error when the content is malformed;
every error it can produce is one of these two kinds, so in particular
it never fails with `TemplateNotFound`. -/
theorem C9_metadata_error_kinds (env : Env) (p : PathBuf) :
    (∀ e, env.readToString (p.join "template.json") = Except.error e →
      load_template_metadata env p = Except.error (GeneratorError.Io e)) ∧
    (∀ content e,
      env.readToString (p.join "template.json") = Except.ok content →
      env.parseMetadata content = Except.error e →
      load_template_metadata env p =
        Except.error (GeneratorError.Serialization e)) ∧
    (∀ e', load_template_metadata env p = Except.error e' →
      isIoOrDeserialization e' = true ∧ isTemplateNotFound e' = false) := by
  refine ⟨?_, ?_, ?_⟩
  · intro e h
    exact load_template_metadata_read_err env p e h
  · intro content e h1 h2
    exact load_template_metadata_parse_err env p content e h1 h2
  · intro e' h
    cases hr : env.readToString (p.join "template.json") with
    | error e =>
      rw [load_template_metadata_read_err env p e hr] at h
      cases Except.error.inj h
      exact ⟨rfl, rfl⟩
    | ok c =>
      cases hp : env.parseMetadata c with
      | error e =>
        rw [load_template_metadata_parse_err env p c e hr hp] at h
        cases Except.error.inj h
        exact ⟨rfl, rfl⟩
      | ok md =>
        rw [load_template_metadata_ok env p c md hr hp] at h
        exact absurd h (by simp)

/-- Claim C9, witness: an absent descriptor yields the `Io` error, a
malformed descriptor yields the `Serialization` error, and the former is
of the wrapped foreign kinds, not `TemplateNotFound`. -/
theorem C9_witness :
    envReadFail.readToString (samplePathA.join "template.json") =
      Except.error "no such file" ∧
    load_template_metadata envReadFail samplePathA =
      Except.error (GeneratorError.Io "no such file") ∧
    envParseFail.parseMetadata "not json" = Except.error "expected value" ∧
    load_template_metadata envParseFail samplePathA =
      Except.error (GeneratorError.Serialization "expected value") ∧
    isIoOrDeserialization (GeneratorError.Io "no such file") = true ∧
    isTemplateNotFound (GeneratorError.Io "no such file") = false := by
  have hA := C9_metadata_error_kinds envReadFail samplePathA
  have hB := C9_metadata_error_kinds envParseFail samplePathA
  have h3 := hA.2.2 (GeneratorError.Io "no such file")
    (hA.1 "no such file" rfl)
  exact ⟨rfl, hA.1 "no such file" rfl, rfl,
    hB.2.1 "not json" "expected value" rfl rfl, h3.1, h3.2⟩

/-- Claim C10: on a cache miss, when the first non-skipped entry's fetch
succeeds but loading the metadata descriptor at the resolved path fails,
`get_template` still returns `Ok` with that path while the manager —
and hence the cache — is left completely unchanged, so the key still
has no usable entry and the next call fetches again. -/
theorem C10_success_without_insert (env : Env) (m : TemplateManager)
    (pt tn : String) (pre post : List TemplateRegistry)
    (r : TemplateRegistry) (p : PathBuf) (e : GeneratorError)
    (hck : noFreshEntry m env.now (cacheKeyOf pt tn) = true)
    (hreg : m.config.registries = pre ++ r :: post)
    (hpre : pre.all (skippedEntry env pt tn) = true)
    (hen : r.enabled = true)
    (hf : env.fetchOne r pt tn = Except.ok p)
    (hmd : load_template_metadata env p = Except.error e) :
    TemplateManager.get_template env m pt tn = (Except.ok p, m) ∧
    noFreshEntry (TemplateManager.get_template env m pt tn).2 env.now
      (cacheKeyOf pt tn) = true := by
  have h1 : TemplateManager.get_template env m pt tn = (Except.ok p, m) := by
    rw [get_template_eq_loop env m pt tn hck, hreg,
        get_template_loop_skip_all env m (cacheKeyOf pt tn) pt tn pre
          (r :: post) hpre]
    exact get_template_loop_hit_err env m (cacheKeyOf pt tn) pt tn r post p e
      hen hf hmd
  refine ⟨h1, ?_⟩
  rw [h1]
  exact hck

/-- Claim C10, witness: entry "a" fetches `samplePathA`, the descriptor
read fails, and the call returns `Ok samplePathA` with the manager (and
its empty cache) unchanged. -/
theorem C10_witness :
    noFreshEntry mgrAB envReadFail.now (cacheKeyOf "vue" "app") = true ∧
    mgrAB.config.registries = [] ++ regA :: [regB] ∧
    regA.enabled = true ∧
    envReadFail.fetchOne regA "vue" "app" = Except.ok samplePathA ∧
    load_template_metadata envReadFail samplePathA =
      Except.error (GeneratorError.Io "no such file") ∧
    TemplateManager.get_template envReadFail mgrAB "vue" "app" =
      (Except.ok samplePathA, mgrAB) := by
  have h := C10_success_without_insert envReadFail mgrAB "vue" "app" []
    [regB] regA samplePathA (GeneratorError.Io "no such file")
    rfl rfl rfl rfl rfl rfl
  exact ⟨rfl, rfl, rfl, rfl, rfl, h.1⟩

end Generator
